import Mathlib

/-!
Verification of the pomodoro-timer core (phase state machine and
wall-clock countdown engine) against its specification.

The definitions below are a shallow embedding of `src/js/app.js`
(the `src/unnamed/part_000` copy agrees on every function modelled
here up to UI/animation side effects).  JavaScript globals are
collected in the structure `AppState`; every function that reads
`Date.now()` takes an explicit `now : Int` (milliseconds); the
`setInterval` / `setTimeout` machinery is modelled by identifier
fields plus a scheduler field `autoPending` holding the auto-start
timeout that is actually live in the event loop (the JS variable
`autoStartTimeoutId` can go stale after its timeout has fired, so
the two are tracked separately).  DOM, audio, analytics and
animation calls touch none of the modelled fields and are dropped.
-/

namespace PomodoroTimer

/-- Phase kinds: the JS string literals 'work' | 'break' | 'longBreak'
(`brk` stands for the string 'break'). -/
inductive PhaseType where
  | work
  | brk
  | longBreak
deriving DecidableEq, Repr

/-- One scheduled segment, from `buildPhases` in app.js:
`{ type, label, duration }` with `duration` in seconds. -/
structure Phase where
  type : PhaseType
  label : String
  duration : Int
deriving DecidableEq, Repr

/-- A JavaScript number that is either NaN or an integer value.
Draft minutes are integers everywhere in the source (inputs go
through `parseInt`, the drag handle through `Math.round`), but a
failed parse yields NaN, which `clampMinutes` handles first. -/
inductive JsNum where
  | nan
  | num (v : Int)
deriving DecidableEq, Repr

/-- The `APP_STATE` enumeration of app.js (lines 37-43). -/
inductive APP_STATE where
  | IDLE
  | RUNNING
  | PAUSED
  | SETTINGS
  | MILESTONE
deriving DecidableEq, Repr

/-- CONFIG.TIMER.MIN_WORK_MINUTES (app.js line 5). -/
def MIN_WORK_MINUTES : Int := 10

/-- CONFIG.TIMER.MIN_BREAK_MINUTES (app.js line 6). -/
def MIN_BREAK_MINUTES : Int := 1

/-- CONFIG.TIMER.MAX_BREAK_MINUTES (app.js line 7). -/
def MAX_BREAK_MINUTES : Int := 10

/-- CONFIG.TIMER.MIN_LONG_BREAK_MINUTES (app.js line 8). -/
def MIN_LONG_BREAK_MINUTES : Int := 5

/-- app.js lines 491-496:
`if (isNaN(v)) return 1; if (v < 1) return 1; if (v > 60) return 60; return v;` -/
def clampMinutes : JsNum → Int
  | JsNum.nan => 1
  | JsNum.num v => if v < 1 then 1 else if v > 60 then 60 else v

/-- app.js lines 498-509.  `buildPhases` reads the globals
`workMinutes`, `breakMinutes`, `longBreakMinutes`; here they are the
three arguments. -/
def buildPhases (workMinutes breakMinutes longBreakMinutes : Int) : List Phase :=
  [ ⟨PhaseType.work,      "Work",       workMinutes * 60⟩,
    ⟨PhaseType.brk,       "Break",      breakMinutes * 60⟩,
    ⟨PhaseType.work,      "Work",       workMinutes * 60⟩,
    ⟨PhaseType.brk,       "Break",      breakMinutes * 60⟩,
    ⟨PhaseType.work,      "Work",       workMinutes * 60⟩,
    ⟨PhaseType.brk,       "Break",      breakMinutes * 60⟩,
    ⟨PhaseType.work,      "Work",       workMinutes * 60⟩,
    ⟨PhaseType.longBreak, "Long Break", longBreakMinutes * 60⟩ ]

/-- Placeholder used for `phases[currentPhaseIndex]` lookups; every
lookup in the modelled operations happens at an in-range index, so
this default is never produced. -/
def defaultPhase : Phase := ⟨PhaseType.work, "Work", 25 * 60⟩

/-- The settings draft `draftDurations = { work, shortBreak, longBreak }`. -/
structure DraftDurations where
  work : JsNum
  shortBreak : JsNum
  longBreak : JsNum
deriving DecidableEq, Repr

/-- The module-level mutable globals of app.js that the countdown
core reads or writes (lines 397-531 and 483-485), plus the two
scheduler-side fields `autoPending` and `nextTimerId` that model
which auto-start timeout is actually live and supply fresh
setTimeout/setInterval identifiers. -/
structure AppState where
  workMinutes : Int
  breakMinutes : Int
  longBreakMinutes : Int
  phases : List Phase
  currentPhaseIndex : Nat
  currentPhase : Phase
  totalSeconds : Int
  remaining : Int
  isRunning : Bool
  hasEverStartedTimer : Bool
  userPausedWork : Bool
  suppressNextStartSound : Bool
  completedWorkSessions : Int
  skippedNotStartedWorkSessions : Int
  skippedNotCompletedWorkSessions : Int
  totalWorkSeconds : Int
  intervalId : Option Nat
  targetTimestamp : Option Int
  silentPause : Bool
  autoStartTimeoutId : Option Nat
  settingsOpen : Bool
  milestonePendingReset : Bool
  appState : APP_STATE
  wasRunningBeforeSettings : Bool
  phaseIndexBeforeSettings : Nat
  draftDurations : DraftDurations
  autoPending : Option Nat
  nextTimerId : Nat
deriving DecidableEq, Repr

/-- `Math.max(0, Math.round(diff / 1000))` for an integer `diff` in
milliseconds.  JS `Math.round x` is `⌊x + 1/2⌋` (halves toward +∞),
so `Math.round (d/1000) = ⌊(2d+1000)/2000⌋`, floor division. -/
def jsRound1000 (diff : Int) : Int := Int.fdiv (2 * diff + 1000) 2000

/-- app.js lines 1236-1262, `finalizeCurrentPhase(completed)`. -/
def finalizeCurrentPhase (completed : Bool) (s : AppState) : AppState :=
  if s.currentPhase.type = PhaseType.work then
    let rawSpent := s.currentPhase.duration - s.remaining
    let spent := max 0 rawSpent
    if completed then
      let effectiveSpent := if spent > 0 then spent else s.currentPhase.duration
      { s with totalWorkSeconds := s.totalWorkSeconds + effectiveSpent,
               completedWorkSessions := s.completedWorkSessions + 1 }
    else if spent > 0 then
      { s with totalWorkSeconds := s.totalWorkSeconds + spent,
               skippedNotCompletedWorkSessions := s.skippedNotCompletedWorkSessions + 1 }
    else
      { s with skippedNotStartedWorkSessions := s.skippedNotStartedWorkSessions + 1 }
  else s

/-- app.js lines 1128-1185, `pauseTimer()`.
`if (!isRunning && !intervalId) return;` then: recompute `remaining`
from `targetTimestamp` (when non-null), stop running, clear the
interval and any pending auto-start timeout, set `userPausedWork`
when pausing a work phase audibly outside settings, clear
`silentPause`, and set the app state to SETTINGS or PAUSED.
Note that `targetTimestamp` itself is left untouched. -/
def pauseTimer (now : Int) (s : AppState) : AppState :=
  if !s.isRunning && s.intervalId.isNone then s
  else
    let s1 :=
      match s.targetTimestamp with
      | some t => { s with remaining := max 0 (jsRound1000 (t - now)) }
      | none => s
    let s2 := { s1 with isRunning := false, intervalId := none }
    let s3 :=
      match s2.autoStartTimeoutId with
      | some id =>
          { s2 with autoPending := if s2.autoPending = some id then none else s2.autoPending,
                    autoStartTimeoutId := none }
      | none => s2
    let s4 :=
      if !s3.silentPause && !s3.settingsOpen && s3.currentPhase.type = PhaseType.work then
        { s3 with userPausedWork := true }
      else s3
    { s4 with silentPause := false,
              appState := if s4.settingsOpen then APP_STATE.SETTINGS else APP_STATE.PAUSED }

/-- app.js lines 1045-1126, `startTimer()`.
No-op when running, in settings, or milestone-pending; otherwise
computes `targetTimestamp = now + remaining * 1000` and installs a
fresh countdown interval.  The resume flags follow lines 1052-1073. -/
def startTimer (now : Int) (s : AppState) : AppState :=
  if s.isRunning || s.settingsOpen || s.milestonePendingReset then s
  else
    let isResume := s.targetTimestamp.isSome && decide (0 < s.remaining)
                      && decide (s.remaining < s.totalSeconds)
    let isWorkResume := s.userPausedWork && (s.currentPhase.type = PhaseType.work) && isResume
    let s1 := { s with userPausedWork := if isWorkResume then false else s.userPausedWork,
                       suppressNextStartSound := false,
                       isRunning := true,
                       appState := APP_STATE.RUNNING }
    { s1 with targetTimestamp := some (now + s1.remaining * 1000),
              intervalId := some s1.nextTimerId,
              nextTimerId := s1.nextTimerId + 1 }

/-- app.js lines 1205-1234, `showMilestoneModal()`: the only modelled
effect is `timerState.setState(APP_STATE.MILESTONE)`. -/
def showMilestoneModal (s : AppState) : AppState :=
  { s with appState := APP_STATE.MILESTONE }

/-- app.js lines 1346-1419, `moveToNextPhase(autoStart, completed)`.
Finalizes statistics for the phase being left; when leaving a long
break it sets `milestonePendingReset`, pauses and shows the
milestone modal without advancing the index; when milestone-pending
it only re-pauses; otherwise it advances the index cyclically,
resets the countdown for the new phase and, for `autoStart`,
schedules the delayed `startTimer` (600 ms) timeout. -/
def moveToNextPhase (autoStart completed : Bool) (now : Int) (s : AppState) : AppState :=
  let prevPhaseType := s.currentPhase.type
  let s1 := finalizeCurrentPhase completed s
  if prevPhaseType = PhaseType.longBreak then
    showMilestoneModal (pauseTimer now { s1 with milestonePendingReset := true })
  else if s1.milestonePendingReset then
    pauseTimer now s1
  else
    let s2 := pauseTimer now { s1 with silentPause := true }
    let idx := (s2.currentPhaseIndex + 1) % s2.phases.length
    let ph := s2.phases.getD idx defaultPhase
    let s3 := { s2 with currentPhaseIndex := idx,
                        currentPhase := ph,
                        totalSeconds := ph.duration,
                        remaining := ph.duration,
                        targetTimestamp := none,
                        suppressNextStartSound := autoStart }
    if autoStart then
      -- `if (autoStartTimeoutId) clearTimeout(autoStartTimeoutId);` then
      -- `autoStartTimeoutId = setTimeout(startTimer, 600)`: the old live
      -- timeout (if any) is cancelled and the new one becomes the single
      -- live auto-start, so `autoPending` is simply overwritten.
      { s3 with autoPending := some s3.nextTimerId,
                autoStartTimeoutId := some s3.nextTimerId,
                nextTimerId := s3.nextTimerId + 1 }
    else s3

/-- The body of the `setInterval` callback installed by `startTimer`
(app.js lines 1106-1124).  JS `targetTimestamp - Date.now()` coerces
a null `targetTimestamp` to 0, hence `getD 0`. -/
def tick (now : Int) (s : AppState) : AppState :=
  let diff := s.targetTimestamp.getD 0 - now
  let newRemaining := max 0 (jsRound1000 diff)
  let s1 := { s with remaining := newRemaining }
  if s1.remaining ≤ 0 then
    moveToNextPhase true true now { s1 with intervalId := none, isRunning := false }
  else s1

/-- app.js lines 1187-1203, `resetCurrentPhase()`. -/
def resetCurrentPhase (now : Int) (s : AppState) : AppState :=
  let s1 := pauseTimer now s
  let ph := s1.phases.getD s1.currentPhaseIndex defaultPhase
  { s1 with currentPhase := ph,
            totalSeconds := ph.duration,
            remaining := ph.duration,
            targetTimestamp := none,
            hasEverStartedTimer := false }

/-- app.js lines 1687-1756, `applySettings()` (the settings-commit
path; persistence, analytics and DOM updates dropped).  Clamps the
three draft durations, rebuilds the schedule, restores the phase
index active before settings opened (falling back to 0 when out of
range; the JS `< 0` arm of that check cannot fire for the Nat
index), resets the countdown, leaves settings, and restarts the
timer when it was running before settings opened. -/
def applySettings (now : Int) (s : AppState) : AppState :=
  let w := max 5 (clampMinutes s.draftDurations.work)
  let b := max MIN_BREAK_MINUTES (min MAX_BREAK_MINUTES (clampMinutes s.draftDurations.shortBreak))
  let l := max MIN_LONG_BREAK_MINUTES (clampMinutes s.draftDurations.longBreak)
  let ps := buildPhases w b l
  let pibs := if s.phaseIndexBeforeSettings ≥ ps.length then 0 else s.phaseIndexBeforeSettings
  let ph := ps.getD pibs defaultPhase
  let s1 := { s with workMinutes := w, breakMinutes := b, longBreakMinutes := l,
                     phases := ps,
                     phaseIndexBeforeSettings := pibs,
                     currentPhaseIndex := pibs,
                     currentPhase := ph,
                     totalSeconds := ph.duration,
                     remaining := ph.duration,
                     targetTimestamp := none,
                     settingsOpen := false,
                     appState := if s.wasRunningBeforeSettings then APP_STATE.RUNNING
                                 else APP_STATE.IDLE }
  let s2 := resetCurrentPhase now s1
  let s3 := if s2.wasRunningBeforeSettings then startTimer now s2 else s2
  { s3 with wasRunningBeforeSettings := false }

/-- app.js lines 1889-1919: the `milestoneOkBtn` click handler,
i.e. `acknowledgeMilestone()`.  Clears the milestone flag, zeroes
the three work-phase counters (note: `totalWorkSeconds` is not
touched anywhere in this handler), pauses, and resets to phase 0. -/
def acknowledgeMilestone (now : Int) (s : AppState) : AppState :=
  let s1 := { s with milestonePendingReset := false,
                     completedWorkSessions := 0,
                     skippedNotStartedWorkSessions := 0,
                     skippedNotCompletedWorkSessions := 0 }
  let s2 := pauseTimer now s1
  let ph := s2.phases.getD 0 defaultPhase
  { s2 with currentPhaseIndex := 0,
            currentPhase := ph,
            totalSeconds := ph.duration,
            remaining := ph.duration,
            hasEverStartedTimer := false,
            appState := APP_STATE.RUNNING }

/-- app.js lines 1618-1669: the settings-button click handler
(state-relevant part).  Remembers the active phase index and the
running flag, opens settings, pauses, and re-seeds the draft
durations from the live configuration (line 1657). -/
def openSettings (now : Int) (s : AppState) : AppState :=
  if s.settingsOpen || s.milestonePendingReset then s
  else
    let s1 := { s with phaseIndexBeforeSettings := s.currentPhaseIndex,
                       settingsOpen := true,
                       wasRunningBeforeSettings := s.isRunning }
    let s2 := pauseTimer now s1
    { s2 with draftDurations := ⟨JsNum.num s2.workMinutes, JsNum.num s2.breakMinutes,
                                 JsNum.num s2.longBreakMinutes⟩ }

/-- app.js lines 1421-1429, `handleSingleClick()`: the manual
start/pause toggle on the timer face. -/
def handleSingleClick (now : Int) (s : AppState) : AppState :=
  if s.settingsOpen || s.milestonePendingReset then s
  else if s.isRunning then pauseTimer now s
  else startTimer now s

/-- app.js lines 1453-1473: the next-button click handler (manual
skip): `moveToNextPhase(wasRunning, false)`. -/
def skipNext (now : Int) (s : AppState) : AppState :=
  if s.settingsOpen || s.milestonePendingReset then s
  else moveToNextPhase s.isRunning false now s

/-- The delayed auto-start timeout (scheduled in `moveToNextPhase`,
app.js lines 1410-1417) firing: the event loop removes the timeout
from the live set and runs its callback `startTimer`.  Firing an
identifier that is no longer live (cleared, or already fired) does
nothing. -/
def autoStartFire (id : Nat) (now : Int) (s : AppState) : AppState :=
  if s.autoPending = some id then startTimer now { s with autoPending := none }
  else s

/-- The external events that can reach the countdown core: user
gestures wired in app.js plus the two scheduler callbacks.  Each
carries the wall-clock time at which it runs. -/
inductive Event where
  | click (now : Int)
  | dblclickReset (now : Int)
  | skip (now : Int)
  | openSettingsBtn (now : Int)
  | commitSettingsBtn (now : Int)
  | milestoneOkBtn (now : Int)
  | intervalTick (now : Int)
  | autoFire (id : Nat) (now : Int)

/-- One step of the event-driven system: each arm is the
corresponding handler with its own guard from app.js.  The
dblclick handler guard is at lines 1446-1450; the back-from-settings
button that triggers `applySettings` is displayed only while the
settings panel is open (lines 1635, 1729-1731), hence the
`settingsOpen` condition; the interval callback can only run while
its interval is installed. -/
def step : Event → AppState → AppState
  | Event.click now, s => handleSingleClick now s
  | Event.dblclickReset now, s =>
      if s.settingsOpen || s.milestonePendingReset then s else resetCurrentPhase now s
  | Event.skip now, s => skipNext now s
  | Event.openSettingsBtn now, s => openSettings now s
  | Event.commitSettingsBtn now, s => if s.settingsOpen then applySettings now s else s
  | Event.milestoneOkBtn now, s => acknowledgeMilestone now s
  | Event.intervalTick now, s => if s.intervalId.isSome then tick now s else s
  | Event.autoFire id now, s => autoStartFire id now s

/-- The initial globals of app.js (lines 397-531) with the default
configuration work 25 / short break 5 / long break 15 and no saved
settings. -/
def initState : AppState where
  workMinutes := 25
  breakMinutes := 5
  longBreakMinutes := 15
  phases := buildPhases 25 5 15
  currentPhaseIndex := 0
  currentPhase := (buildPhases 25 5 15).getD 0 defaultPhase
  totalSeconds := 25 * 60
  remaining := 25 * 60
  isRunning := false
  hasEverStartedTimer := false
  userPausedWork := false
  suppressNextStartSound := false
  completedWorkSessions := 0
  skippedNotStartedWorkSessions := 0
  skippedNotCompletedWorkSessions := 0
  totalWorkSeconds := 0
  intervalId := none
  targetTimestamp := none
  silentPause := false
  autoStartTimeoutId := none
  settingsOpen := false
  milestonePendingReset := false
  appState := APP_STATE.IDLE
  wasRunningBeforeSettings := false
  phaseIndexBeforeSettings := 0
  draftDurations := ⟨JsNum.num 25, JsNum.num 5, JsNum.num 15⟩
  autoPending := none
  nextTimerId := 0

/-- Any number of interval callbacks, each at its own wall-clock
time, run in order. -/
def runTicks (ts : List Int) (s : AppState) : AppState :=
  ts.foldl (fun acc t => step (Event.intervalTick t) acc) s

/-- The default timer started manually at time 0: running with
1500 s of work remaining and target timestamp 1 500 000 ms. -/
def runningState : AppState := startTimer 0 initState

/-- A set just finished: milestone pending with 4 completed work
phases and 6000 s of recorded focus time. -/
def milestoneState : AppState :=
  { initState with milestonePendingReset := true,
                   appState := APP_STATE.MILESTONE,
                   currentPhaseIndex := 7,
                   currentPhase := (buildPhases 25 5 15).getD 7 defaultPhase,
                   totalSeconds := 15 * 60,
                   remaining := 0,
                   completedWorkSessions := 4,
                   totalWorkSeconds := 6000 }

/-- A work phase (duration 1500 s) with 100 s still remaining:
input for exercising the statistics tracker with completed = true
at a nonzero remaining value. -/
def interruptedWorkState : AppState := { initState with remaining := 100 }

/-- A settings draft proposing work = 3 minutes. -/
def workThreeDraft : AppState :=
  { initState with settingsOpen := true,
                   draftDurations := ⟨JsNum.num 3, JsNum.num 5, JsNum.num 15⟩ }

/-- Ghost auto-start trace, step 1: manual start at 0 ms. -/
def ghostTrace0 : AppState := step (Event.click 0) initState

/-- Step 2: natural work-phase expiry at 1 500 000 ms advances to the
short break and schedules the delayed auto-start (identifier 1,
due 600 ms later). -/
def ghostTrace1 : AppState := step (Event.intervalTick 1500000) ghostTrace0

/-- Step 3: the user opens settings at 1 500 100 ms (the engine is
already paused, so pauseTimer returns early and the pending
auto-start is NOT cancelled). -/
def ghostTrace2 : AppState := step (Event.openSettingsBtn 1500100) ghostTrace1

/-- Step 4: the user commits settings at 1 500 400 ms. -/
def ghostTrace3 : AppState := step (Event.commitSettingsBtn 1500400) ghostTrace2

/-- Step 5: the auto-start timeout scheduled in step 2 fires at
1 500 600 ms. -/
def ghostTrace4 : AppState := step (Event.autoFire 1 1500600) ghostTrace3

/-- After pauseTimer the engine is stopped and no interval is
installed, on both the early-return path (where the guard already
gives both) and the full path. -/
theorem pauseTimer_stopped (now : Int) (s : AppState) :
    (pauseTimer now s).isRunning = false ∧ (pauseTimer now s).intervalId = none := by
  unfold pauseTimer
  split
  · rename_i h
    simp only [Bool.and_eq_true, Bool.not_eq_true', Option.isNone_iff_eq_none] at h
    exact ⟨h.1, h.2⟩
  · cases htt : s.targetTimestamp <;>
      simp only [htt] <;>
      (cases hat : s.autoStartTimeoutId <;> simp [hat] <;> split_ifs <;> simp)

/-- Fields that pauseTimer never writes. -/
theorem pauseTimer_preserves (now : Int) (s : AppState) :
    (pauseTimer now s).completedWorkSessions = s.completedWorkSessions ∧
    (pauseTimer now s).skippedNotStartedWorkSessions = s.skippedNotStartedWorkSessions ∧
    (pauseTimer now s).skippedNotCompletedWorkSessions = s.skippedNotCompletedWorkSessions ∧
    (pauseTimer now s).totalWorkSeconds = s.totalWorkSeconds ∧
    (pauseTimer now s).currentPhaseIndex = s.currentPhaseIndex ∧
    (pauseTimer now s).currentPhase = s.currentPhase ∧
    (pauseTimer now s).phases = s.phases ∧
    (pauseTimer now s).milestonePendingReset = s.milestonePendingReset ∧
    (pauseTimer now s).settingsOpen = s.settingsOpen ∧
    (pauseTimer now s).targetTimestamp = s.targetTimestamp ∧
    (pauseTimer now s).totalSeconds = s.totalSeconds ∧
    (pauseTimer now s).workMinutes = s.workMinutes := by
  unfold pauseTimer
  split
  · simp
  · cases htt : s.targetTimestamp <;>
      simp only [htt] <;>
      (cases hat : s.autoStartTimeoutId <;> simp [hat] <;> split_ifs <;> simp)

/-- Fields that finalizeCurrentPhase never writes (it only updates
the four statistics counters). -/
theorem finalizeCurrentPhase_preserves (c : Bool) (s : AppState) :
    (finalizeCurrentPhase c s).currentPhaseIndex = s.currentPhaseIndex ∧
    (finalizeCurrentPhase c s).currentPhase = s.currentPhase ∧
    (finalizeCurrentPhase c s).phases = s.phases ∧
    (finalizeCurrentPhase c s).isRunning = s.isRunning ∧
    (finalizeCurrentPhase c s).intervalId = s.intervalId ∧
    (finalizeCurrentPhase c s).appState = s.appState ∧
    (finalizeCurrentPhase c s).milestonePendingReset = s.milestonePendingReset ∧
    (finalizeCurrentPhase c s).settingsOpen = s.settingsOpen ∧
    (finalizeCurrentPhase c s).targetTimestamp = s.targetTimestamp ∧
    (finalizeCurrentPhase c s).remaining = s.remaining ∧
    (finalizeCurrentPhase c s).silentPause = s.silentPause ∧
    (finalizeCurrentPhase c s).autoStartTimeoutId = s.autoStartTimeoutId ∧
    (finalizeCurrentPhase c s).autoPending = s.autoPending := by
  unfold finalizeCurrentPhase
  split_ifs <;> simp <;> split_ifs <;> simp

/-- startTimer is a no-op while milestone acknowledgement is pending
(its guard, app.js line 1046). -/
theorem startTimer_noop_milestone (now : Int) (s : AppState)
    (h : s.milestonePendingReset = true) : startTimer now s = s := by
  unfold startTimer
  simp [h]

/-- Lower bound for the rounded remaining seconds: a full second or
more on the clock rounds to at least 1. -/
theorem jsRound1000_ge_one {d : Int} (h : 1000 ≤ d) : 1 ≤ jsRound1000 d := by
  unfold jsRound1000
  rw [Int.fdiv_eq_ediv _ (by norm_num)]
  omega

/-- Rounding an exact multiple of 1000 ms recovers the exact number
of seconds. -/
theorem jsRound1000_mul (m : Int) : jsRound1000 (1000 * m) = m := by
  unfold jsRound1000
  rw [Int.fdiv_eq_ediv _ (by norm_num)]
  omega

/-- clampMinutes always lands in the generic input range. -/
theorem clampMinutes_bounds (x : JsNum) : 1 ≤ clampMinutes x ∧ clampMinutes x ≤ 60 := by
  cases x <;> simp [clampMinutes] <;> split_ifs <;> omega

/-- startTimer never changes the configured minutes. -/
theorem startTimer_minutes (now : Int) (s : AppState) :
    (startTimer now s).workMinutes = s.workMinutes ∧
    (startTimer now s).breakMinutes = s.breakMinutes ∧
    (startTimer now s).longBreakMinutes = s.longBreakMinutes := by
  unfold startTimer
  split_ifs <;> simp

/-- pauseTimer never changes the configured minutes nor the
remembered pre-settings running flag. -/
theorem pauseTimer_minutes (now : Int) (s : AppState) :
    (pauseTimer now s).workMinutes = s.workMinutes ∧
    (pauseTimer now s).breakMinutes = s.breakMinutes ∧
    (pauseTimer now s).longBreakMinutes = s.longBreakMinutes ∧
    (pauseTimer now s).wasRunningBeforeSettings = s.wasRunningBeforeSettings := by
  unfold pauseTimer
  split
  · simp
  · cases htt : s.targetTimestamp <;>
      simp only [htt] <;>
      (cases hat : s.autoStartTimeoutId <;> simp [hat] <;> split_ifs <;> simp)

/-- resetCurrentPhase never changes the configured minutes nor the
remembered pre-settings running flag. -/
theorem resetCurrentPhase_minutes (now : Int) (s : AppState) :
    (resetCurrentPhase now s).workMinutes = s.workMinutes ∧
    (resetCurrentPhase now s).breakMinutes = s.breakMinutes ∧
    (resetCurrentPhase now s).longBreakMinutes = s.longBreakMinutes ∧
    (resetCurrentPhase now s).wasRunningBeforeSettings = s.wasRunningBeforeSettings := by
  unfold resetCurrentPhase
  have h := pauseTimer_minutes now s
  simp [h.1, h.2.1, h.2.2.1, h.2.2.2]

/-- The conditional restart at the end of applySettings keeps the
committed minutes. -/
theorem startOrKeep_minutes (now : Int) (u : AppState) :
    (if u.wasRunningBeforeSettings = true then startTimer now u else u).workMinutes
        = u.workMinutes ∧
    (if u.wasRunningBeforeSettings = true then startTimer now u else u).breakMinutes
        = u.breakMinutes ∧
    (if u.wasRunningBeforeSettings = true then startTimer now u else u).longBreakMinutes
        = u.longBreakMinutes := by
  split_ifs <;>
    simp [(startTimer_minutes now u).1, (startTimer_minutes now u).2.1,
          (startTimer_minutes now u).2.2]

/-- The three duration fields committed by applySettings, expressed
by the clamping formulas of app.js lines 1688-1690. -/
theorem applySettings_minutes (now : Int) (s : AppState) :
    (applySettings now s).workMinutes = max 5 (clampMinutes s.draftDurations.work) ∧
    (applySettings now s).breakMinutes =
      max MIN_BREAK_MINUTES (min MAX_BREAK_MINUTES (clampMinutes s.draftDurations.shortBreak)) ∧
    (applySettings now s).longBreakMinutes =
      max MIN_LONG_BREAK_MINUTES (clampMinutes s.draftDurations.longBreak) := by
  unfold applySettings
  refine ⟨?_, ?_, ?_⟩ <;>
    simp only [(startOrKeep_minutes _ _).1, (startOrKeep_minutes _ _).2.1,
               (startOrKeep_minutes _ _).2.2,
               (resetCurrentPhase_minutes _ _).1, (resetCurrentPhase_minutes _ _).2.1,
               (resetCurrentPhase_minutes _ _).2.2.1]

/-- An interval callback that runs a full second or more before the
target timestamp only refreshes the remaining seconds; it does not
trigger a phase transition and leaves target and interval alone. -/
theorem tick_before_expiry (s : AppState) (tgt t : Int)
    (htgt : s.targetTimestamp = some tgt) (hgap : 1000 ≤ tgt - t) :
    tick t s = { s with remaining := jsRound1000 (tgt - t) } := by
  have h1 : 1 ≤ jsRound1000 (tgt - t) := jsRound1000_ge_one hgap
  unfold tick
  rw [htgt]
  simp only [Option.getD_some]
  rw [max_eq_right (by omega)]
  rw [if_neg (by simp; omega)]

/-- Any sequence of interval callbacks, each a full second or more
before the target timestamp, preserves the target timestamp and the
installed interval. -/
theorem runTicks_window (tgt : Int) (ts : List Int) :
    ∀ s : AppState, s.targetTimestamp = some tgt →
      (∀ t ∈ ts, 1000 ≤ tgt - t) →
      (runTicks ts s).targetTimestamp = some tgt ∧
      (runTicks ts s).intervalId = s.intervalId := by
  induction ts with
  | nil => intro s h _; exact ⟨h, rfl⟩
  | cons t ts ih =>
      intro s h hts
      have hgap : 1000 ≤ tgt - t := hts t (by simp)
      unfold runTicks
      simp only [List.foldl_cons]
      by_cases hiv : s.intervalId.isSome
      · have hstep : step (Event.intervalTick t) s
            = { s with remaining := jsRound1000 (tgt - t) } := by
          simp only [step, hiv, if_pos]
          exact tick_before_expiry s tgt t h hgap
        rw [hstep]
        have := ih { s with remaining := jsRound1000 (tgt - t) } (by simpa using h)
          (fun u hu => hts u (by simp [hu]))
        exact ⟨this.1, by simpa using this.2⟩
      · have hstep : step (Event.intervalTick t) s = s := by
          simp [step, hiv]
        rw [hstep]
        exact ih s h (fun u hu => hts u (by simp [hu]))

/-- A permitted startTimer call installs the wall-clock target
timestamp and a fresh interval without touching the remaining
seconds. -/
theorem startTimer_starts (now : Int) (s : AppState)
    (h1 : s.isRunning = false) (h2 : s.settingsOpen = false)
    (h3 : s.milestonePendingReset = false) :
    (startTimer now s).targetTimestamp = some (now + s.remaining * 1000) ∧
    (startTimer now s).remaining = s.remaining ∧
    (startTimer now s).intervalId = some s.nextTimerId ∧
    (startTimer now s).isRunning = true := by
  unfold startTimer
  rw [if_neg (by simp [h1, h2, h3])]
  simp

/-- Claim C1: committing the settings draft work = 3 yields a
committed work duration of 5 minutes, not the 10-minute minimum
stated by the specification and by the code itself in
CONFIG.TIMER.MIN_WORK_MINUTES: applySettings (app.js line 1688)
clamps with the literal 5 instead of that constant. -/
theorem applySettings_work3_commits_five :
    (step (Event.commitSettingsBtn 0) workThreeDraft).workMinutes = 5 ∧
    (step (Event.commitSettingsBtn 0) workThreeDraft).workMinutes ≠ MIN_WORK_MINUTES := by
  decide

/-- Claim C2 counterexample: acknowledging the milestone on a state
with 6000 recorded focus seconds leaves totalWorkSeconds at 6000, so
it is false that all four statistics fields are 0 afterwards. -/
theorem acknowledgeMilestone_keeps_focus_seconds :
    (acknowledgeMilestone 0 milestoneState).totalWorkSeconds = 6000 ∧
    ¬ ((acknowledgeMilestone 0 milestoneState).completedWorkSessions = 0 ∧
       (acknowledgeMilestone 0 milestoneState).skippedNotStartedWorkSessions = 0 ∧
       (acknowledgeMilestone 0 milestoneState).skippedNotCompletedWorkSessions = 0 ∧
       (acknowledgeMilestone 0 milestoneState).totalWorkSeconds = 0) := by
  decide

/-- Claim C2 as amended: after every acknowledgeMilestone call the
three work-phase counters are exactly 0 and currentPhaseIndex is 0,
while totalFocusedSeconds (totalWorkSeconds) keeps its prior value:
it is reset nowhere in the program. -/
theorem acknowledgeMilestone_resets (now : Int) (s : AppState) :
    (acknowledgeMilestone now s).completedWorkSessions = 0 ∧
    (acknowledgeMilestone now s).skippedNotStartedWorkSessions = 0 ∧
    (acknowledgeMilestone now s).skippedNotCompletedWorkSessions = 0 ∧
    (acknowledgeMilestone now s).currentPhaseIndex = 0 ∧
    (acknowledgeMilestone now s).milestonePendingReset = false ∧
    (acknowledgeMilestone now s).totalWorkSeconds = s.totalWorkSeconds := by
  unfold acknowledgeMilestone
  have h := pauseTimer_preserves now
    { s with milestonePendingReset := false,
             completedWorkSessions := 0,
             skippedNotStartedWorkSessions := 0,
             skippedNotCompletedWorkSessions := 0 }
  simp_all

/-- Claim C3 counterexample: pausing the running default timer at
100 s recomputes remainingSeconds (1400) but leaves targetTimestamp
at some 1500000 while runStatus is Paused, so pause does not clear
targetTimestamp and the claimed if-and-only-if invariant is broken
by the pause operation itself. -/
theorem pause_keeps_target :
    runningState.isRunning = true ∧
    runningState.targetTimestamp = some 1500000 ∧
    (pauseTimer 100000 runningState).isRunning = false ∧
    (pauseTimer 100000 runningState).appState = APP_STATE.PAUSED ∧
    (pauseTimer 100000 runningState).remaining = 1400 ∧
    (pauseTimer 100000 runningState).targetTimestamp = some 1500000 ∧
    (pauseTimer 100000 runningState).targetTimestamp ≠ none := by
  decide

/-- Claim C3 as amended: pause on a running timer recomputes
remainingSeconds from targetTimestamp one last time, stops the
engine and its refresh, and leaves targetTimestamp unchanged
(non-null; startTimer later reads it to detect a resume), so after
a pause the state is not Running yet still carries a non-null
targetTimestamp. -/
theorem pauseTimer_running_behaviour (now : Int) (s : AppState)
    (h : s.isRunning = true) :
    (pauseTimer now s).isRunning = false ∧
    (pauseTimer now s).intervalId = none ∧
    (pauseTimer now s).targetTimestamp = s.targetTimestamp ∧
    (∀ t, s.targetTimestamp = some t →
      (pauseTimer now s).remaining = max 0 (jsRound1000 (t - now))) ∧
    (pauseTimer now s).appState =
      (if s.settingsOpen = true then APP_STATE.SETTINGS else APP_STATE.PAUSED) := by
  unfold pauseTimer
  rw [if_neg (by simp [h])]
  cases htt : s.targetTimestamp <;>
    simp only [htt] <;>
    (cases hat : s.autoStartTimeoutId <;> simp [hat] <;> split_ifs <;> simp_all)

/-- Witness for the amended claim C3 at the concrete running state. -/
theorem pauseTimer_running_behaviour_witness :
    runningState.isRunning = true ∧
    (pauseTimer 100000 runningState).targetTimestamp = runningState.targetTimestamp := by
  exact ⟨by decide, (pauseTimer_running_behaviour 100000 runningState (by decide)).2.2.1⟩

/-- Claim C4 counterexample: finalizing a work phase of duration
1500 s with completed = true while 100 s remain credits the elapsed
1400 s, not max(1400, 1500) = 1500 as the claim states for every
elapsed value. -/
theorem finalize_completed_partial_credit :
    interruptedWorkState.currentPhase.type = PhaseType.work ∧
    interruptedWorkState.currentPhase.duration = 1500 ∧
    interruptedWorkState.remaining = 100 ∧
    interruptedWorkState.totalWorkSeconds = 0 ∧
    (finalizeCurrentPhase true interruptedWorkState).totalWorkSeconds = 1400 ∧
    max (interruptedWorkState.currentPhase.duration - interruptedWorkState.remaining)
        interruptedWorkState.currentPhase.duration = 1500 ∧
    (1400 : Int) ≠ 1500 := by
  decide

/-- Claim C4 as amended: finalizing a Work phase with
completed = true increments completedWorkPhases by 1 and increases
totalFocusedSeconds by the elapsed seconds when they are positive,
and by the full nominal duration only when the computed elapsed
time is zero or negative, so the full duration is credited exactly
in the zero-elapsed rounding case (which covers natural completion,
where remaining is 0 and elapsed equals the duration). -/
theorem finalize_completed_work (s : AppState)
    (h : s.currentPhase.type = PhaseType.work) :
    (finalizeCurrentPhase true s).completedWorkSessions = s.completedWorkSessions + 1 ∧
    (finalizeCurrentPhase true s).totalWorkSeconds =
      s.totalWorkSeconds +
        (if 0 < max 0 (s.currentPhase.duration - s.remaining)
         then max 0 (s.currentPhase.duration - s.remaining)
         else s.currentPhase.duration) := by
  unfold finalizeCurrentPhase
  simp [h]

/-- Witness for the amended claim C4 at the initial work phase. -/
theorem finalize_completed_work_witness :
    initState.currentPhase.type = PhaseType.work ∧
    (finalizeCurrentPhase true initState).completedWorkSessions = 1 := by
  refine ⟨by decide, ?_⟩
  have h := finalize_completed_work initState (by decide)
  rw [h.1]
  decide

/-- Claim C5: an advance that leaves the LongBreak phase puts the
system in MILESTONE state, force-paused (engine stopped, interval
cleared), without touching currentPhaseIndex; while the milestone is
pending (and settings are closed and no interval is installed, both
invariants of reachable milestone states) no event other than
milestone acknowledgement changes currentPhaseIndex or leaves the
pending state; acknowledgement itself resets the index to 0 and
clears the pending flag. -/
theorem milestone_gating (s : AppState) (a c : Bool) (now : Int) (e : Event) :
    (s.currentPhase.type = PhaseType.longBreak →
      ((moveToNextPhase a c now s).appState = APP_STATE.MILESTONE ∧
       (moveToNextPhase a c now s).isRunning = false ∧
       (moveToNextPhase a c now s).intervalId = none ∧
       (moveToNextPhase a c now s).milestonePendingReset = true ∧
       (moveToNextPhase a c now s).currentPhaseIndex = s.currentPhaseIndex)) ∧
    (s.milestonePendingReset = true → s.settingsOpen = false → s.intervalId = none →
      (∀ n, e ≠ Event.milestoneOkBtn n) →
      ((step e s).currentPhaseIndex = s.currentPhaseIndex ∧
       (step e s).milestonePendingReset = true)) ∧
    ((step (Event.milestoneOkBtn now) s).currentPhaseIndex = 0 ∧
     (step (Event.milestoneOkBtn now) s).milestonePendingReset = false) := by
  refine ⟨?_, ?_, ?_⟩
  · intro hlb
    unfold moveToNextPhase
    rw [if_pos (by simp [hlb, (finalizeCurrentPhase_preserves c s).2.1])]
    have hp := pauseTimer_stopped now
      { finalizeCurrentPhase c s with milestonePendingReset := true }
    have hq := pauseTimer_preserves now
      { finalizeCurrentPhase c s with milestonePendingReset := true }
    have hf := finalizeCurrentPhase_preserves c s
    simp only [showMilestoneModal]
    refine ⟨by trivial, ?_, ?_, ?_, ?_⟩
    · simpa using hp.1
    · simpa using hp.2
    · have := hq.2.2.2.2.2.2.2.1
      simpa using this
    · have := hq.2.2.2.2.1
      simp only [this]
      simpa using hf.1
  · intro hm hso hiv hne
    cases e with
    | click now2 => simp [step, handleSingleClick, hm]
    | dblclickReset now2 => simp [step, hm]
    | skip now2 => simp [step, skipNext, hm]
    | openSettingsBtn now2 => simp [step, openSettings, hm]
    | commitSettingsBtn now2 => simp [step, hso, hm]
    | milestoneOkBtn now2 => exact absurd rfl (hne now2)
    | intervalTick now2 => simp [step, hiv, hm]
    | autoFire id now2 =>
        simp only [step, autoStartFire]
        split_ifs with hpend
        · rw [startTimer_noop_milestone now2 { s with autoPending := none }
            (by simpa using hm)]
          simp [hm]
        · simp [hm]
  · have hq := pauseTimer_preserves now
      { s with milestonePendingReset := false,
               completedWorkSessions := 0,
               skippedNotStartedWorkSessions := 0,
               skippedNotCompletedWorkSessions := 0 }
    simp only [step, acknowledgeMilestone]
    refine ⟨by trivial, ?_⟩
    have := hq.2.2.2.2.2.2.2.1
    simpa using this

/-- Witness for claim C5 at the concrete milestone-pending state and
a click event. -/
theorem milestone_gating_witness :
    milestoneState.milestonePendingReset = true ∧
    (step (Event.click 0) milestoneState).currentPhaseIndex
      = milestoneState.currentPhaseIndex := by
  refine ⟨by decide, ?_⟩
  exact ((milestone_gating milestoneState false false 0 (Event.click 0)).2.1
    (by decide) (by decide) (by decide) (fun n h => Event.noConfusion h)).1

/-- Claim C6: starting at wall-clock time now with R remaining
seconds and observing at now + k seconds (0 < k < R, observation
being the interval callback recomputation) yields exactly R - k,
regardless of which interval callbacks ran in between, since every
callback recomputes the remaining time from the unchanged target
timestamp now + R * 1000. -/
theorem wall_clock_accuracy (s : AppState) (now k : Int) (ts : List Int)
    (h1 : s.isRunning = false) (h2 : s.settingsOpen = false)
    (h3 : s.milestonePendingReset = false)
    (hk0 : 0 < k) (hkR : k < s.remaining)
    (hts : ∀ t ∈ ts, now ≤ t ∧ t < now + 1000 * k) :
    (step (Event.intervalTick (now + 1000 * k))
        (runTicks ts (startTimer now s))).remaining = s.remaining - k := by
  obtain ⟨htgt, hrem, hiv, _⟩ := startTimer_starts now s h1 h2 h3
  set tgt := now + s.remaining * 1000 with hdef
  have hwin : ∀ t ∈ ts, 1000 ≤ tgt - t := by
    intro t ht
    have := hts t ht
    omega
  obtain ⟨htgt2, hiv2⟩ := runTicks_window tgt ts (startTimer now s) htgt hwin
  have hiv2s : (runTicks ts (startTimer now s)).intervalId.isSome := by
    rw [hiv2, hiv]; rfl
  have hstep : step (Event.intervalTick (now + 1000 * k)) (runTicks ts (startTimer now s))
      = { runTicks ts (startTimer now s) with
            remaining := jsRound1000 (tgt - (now + 1000 * k)) } := by
    simp only [step, hiv2s, if_pos]
    exact tick_before_expiry _ tgt _ htgt2 (by omega)
  rw [hstep]
  have : tgt - (now + 1000 * k) = 1000 * (s.remaining - k) := by ring
  rw [this, jsRound1000_mul]

/-- Witness for claim C6: default start at 0 with three irregular
callbacks, observed at second 2. -/
theorem wall_clock_accuracy_witness :
    (step (Event.intervalTick (0 + 1000 * 2))
        (runTicks [300, 700, 1301] (startTimer 0 initState))).remaining
      = initState.remaining - 2 := by
  exact wall_clock_accuracy initState 0 2 [300, 700, 1301] (by decide) (by decide)
    (by decide) (by decide) (by decide) (by decide)

/-- Claim C7: the ghost auto-start trace.  After the automatic
transition at step 2 an auto-start is pending; the user opens
settings (step 3) and commits them (step 4), and the pending
auto-start is still live because the pause inside the settings
handler returned early on the already-paused engine; when it fires
(step 5) it starts the countdown, so a previously pending auto-start
does change the countdown state after the user opened settings. -/
theorem ghost_autostart_after_settings_commit :
    ghostTrace1.autoPending = some 1 ∧
    ghostTrace1.isRunning = false ∧
    ghostTrace2.settingsOpen = true ∧
    ghostTrace2.autoPending = some 1 ∧
    ghostTrace3.settingsOpen = false ∧
    ghostTrace3.isRunning = false ∧
    ghostTrace3.appState = APP_STATE.IDLE ∧
    ghostTrace3.autoPending = some 1 ∧
    ghostTrace4.isRunning = true ∧
    ghostTrace4.appState = APP_STATE.RUNNING ∧
    ghostTrace4.targetTimestamp = some 1800600 := by
  decide

/-- Claim C8: for all durations, buildPhases yields exactly 8 phases
in the fixed Work, ShortBreak, Work, ShortBreak, Work, ShortBreak,
Work, LongBreak pattern with exactly one LongBreak at the end, and
the Work-phase durations sum to 4 * workMinutes * 60 seconds. -/
theorem buildPhases_topology (w b l : Int) :
    (buildPhases w b l).length = 8 ∧
    (buildPhases w b l).map Phase.type =
      [PhaseType.work, PhaseType.brk, PhaseType.work, PhaseType.brk,
       PhaseType.work, PhaseType.brk, PhaseType.work, PhaseType.longBreak] ∧
    ((buildPhases w b l).filter (fun p => p.type = PhaseType.longBreak)).length = 1 ∧
    (buildPhases w b l).getLast? = some ⟨PhaseType.longBreak, "Long Break", l * 60⟩ ∧
    (((buildPhases w b l).filter (fun p => p.type = PhaseType.work)).map Phase.duration).sum
      = 4 * (w * 60) := by
  refine ⟨rfl, rfl, ?_, rfl, ?_⟩
  · simp [buildPhases]
  · simp [buildPhases]
    ring

/-- Claim C9: pauseTimer is idempotent at any pair of times: the
second call hits the early-return guard (not running, no interval)
and is a complete no-op, leaving remainingSeconds and every other
field unchanged. -/
theorem pauseTimer_idempotent (now1 now2 : Int) (s : AppState) :
    pauseTimer now2 (pauseTimer now1 s) = pauseTimer now1 s := by
  have h := pauseTimer_stopped now1 s
  conv_lhs => rw [pauseTimer]
  simp [h.1, h.2]

/-- Claim C10: settings commit is total and clamps every draft,
numeric or NaN, into bounded ranges: work in 5..60, short break in
1..10, long break in 5..60; clampMinutes maps NaN to 1, so a NaN
work draft commits as 5 minutes. -/
theorem applySettings_total_and_bounded (now : Int) (s : AppState) :
    5 ≤ (applySettings now s).workMinutes ∧ (applySettings now s).workMinutes ≤ 60 ∧
    1 ≤ (applySettings now s).breakMinutes ∧ (applySettings now s).breakMinutes ≤ 10 ∧
    5 ≤ (applySettings now s).longBreakMinutes ∧ (applySettings now s).longBreakMinutes ≤ 60 ∧
    (s.draftDurations.work = JsNum.nan → (applySettings now s).workMinutes = 5) ∧
    clampMinutes JsNum.nan = 1 := by
  obtain ⟨hw, hb, hl⟩ := applySettings_minutes now s
  have cw := clampMinutes_bounds s.draftDurations.work
  have cb := clampMinutes_bounds s.draftDurations.shortBreak
  have cl := clampMinutes_bounds s.draftDurations.longBreak
  rw [hw, hb, hl]
  refine ⟨?_, ?_, ?_, ?_, ?_, ?_, ?_, rfl⟩
  · omega
  · omega
  · unfold MIN_BREAK_MINUTES MAX_BREAK_MINUTES; omega
  · unfold MIN_BREAK_MINUTES MAX_BREAK_MINUTES; omega
  · unfold MIN_LONG_BREAK_MINUTES; omega
  · unfold MIN_LONG_BREAK_MINUTES; omega
  · intro hnan; rw [hnan]; decide

/-- Witness for claim C10 at an all-NaN draft. -/
theorem applySettings_total_and_bounded_witness :
    (applySettings 0 { initState with
        draftDurations := ⟨JsNum.nan, JsNum.nan, JsNum.nan⟩ }).workMinutes = 5 := by
  exact (applySettings_total_and_bounded 0 { initState with
      draftDurations := ⟨JsNum.nan, JsNum.nan, JsNum.nan⟩ }).2.2.2.2.2.2.1 rfl

end PomodoroTimer


